import Mathlib

/-!
Verification of the report generator in generate_report.py.

The program builds a styled PDF report with the ReportLab library. We embed
the data the program manipulates shallowly: colors become their hex source
text, paragraph styles become records, flowables become an inductive type,
and the ambient effects the program consults at run time, namely the current
working directory, the date, file existence, image decodability and render
failures, become an explicit Env record threaded through the definitions.
Machine reals in the source are exact point values, so we use rationals.
-/

namespace AwsReport

/-- Colors are modelled by the hex text the source constructs them from. -/
abbrev Color := String

def PRIMARY_BLUE : Color := "#2E86AB"

def SECONDARY_PURPLE : Color := "#A23B72"

def ACCENT_ORANGE : Color := "#F18F01"

def NEUTRAL_DARK : Color := "#2D2D2D"

def NEUTRAL_TEXT : Color := "#3A3A3A"

def NEUTRAL_MUTED : Color := "#6F6F6F"

def NEUTRAL_BORDER : Color := "#DDDDDD"

def NEUTRAL_BG : Color := "#F7F9FB"

/-- reportlab colors.white -/
def white : Color := "#FFFFFF"

/-- reportlab colors.whitesmoke -/
def whitesmoke : Color := "#F5F5F5"

/-- reportlab colors.black, the default text color of ParagraphStyle. -/
def black : Color := "#000000"

/-- One typographic inch in points (reportlab.lib.units.inch). -/
def inch : ℚ := 72

/-- Margins of 72pt per requirement (MARGIN = 72 in the source). -/
def MARGIN : ℚ := 72

/-- Target screenshot width: 6.5 in (SHOT_W = 6.5 * inch). -/
def SHOT_W : ℚ := 6.5 * inch

/-- Target screenshot height: 4 in (SHOT_H = 4.0 * inch). -/
def SHOT_H : ℚ := 4.0 * inch

/-- A paragraph style record: the attributes of reportlab ParagraphStyle that
the program sets or reads. Constructing a style with a parent copies every
attribute of the parent and then applies the overrides, which we model with
record update. -/
structure ParagraphStyle where
  name : String
  fontName : String
  fontSize : ℚ
  leading : ℚ
  textColor : Color
  backColor : Option Color
  alignment : ℤ
  spaceBefore : ℚ
  spaceAfter : ℚ
  leftIndent : ℚ
  rightIndent : ℚ
  borderPadding : ℚ
deriving DecidableEq

/-- The attribute defaults of reportlab ParagraphStyle. -/
def defaultParagraphStyle : ParagraphStyle :=
  { name := "default", fontName := "Helvetica", fontSize := 10, leading := 12,
    textColor := black, backColor := none, alignment := 0, spaceBefore := 0,
    spaceAfter := 0, leftIndent := 0, rightIndent := 0, borderPadding := 0 }

/-- The entries of the reportlab sample stylesheet that build_styles reads. -/
structure SampleStyleSheet where
  Normal : ParagraphStyle
  BodyText : ParagraphStyle
  Italic : ParagraphStyle
  Title : ParagraphStyle
  Heading2 : ParagraphStyle
deriving DecidableEq

/-- reportlab getSampleStyleSheet, restricted to the styles the program looks
up: Normal, BodyText, Italic, Title and Heading2, with the attribute values
the library assigns them. -/
def getSampleStyleSheet (_u : Unit) : SampleStyleSheet :=
  let normal := { defaultParagraphStyle with name := "Normal" }
  let bodyText := { normal with name := "BodyText", spaceBefore := 6 }
  let italic := { bodyText with name := "Italic", fontName := "Helvetica-Oblique" }
  let title := { normal with
    name := "Title"
    fontName := "Helvetica-Bold"
    fontSize := 18
    leading := 22
    alignment := 1
    spaceAfter := 6 }
  let heading2 := { normal with
    name := "Heading2"
    fontName := "Helvetica-Bold"
    fontSize := 14
    leading := 18
    spaceBefore := 12
    spaceAfter := 6 }
  { Normal := normal, BodyText := bodyText, Italic := italic,
    Title := title, Heading2 := heading2 }

/-- The style registry returned by build_styles: a mapping with the ten named
keys of the dict literal in the source. -/
structure StyleSet where
  title : ParagraphStyle
  subtitle : ParagraphStyle
  h2 : ParagraphStyle
  h2c : ParagraphStyle
  body : ParagraphStyle
  caption : ParagraphStyle
  small : ParagraphStyle
  th : ParagraphStyle
  tc : ParagraphStyle
  callout : ParagraphStyle
deriving DecidableEq

/-- build_styles from the source: each ParagraphStyle copies its parent and
applies the keyword overrides written in the source. -/
def build_styles (_u : Unit) : StyleSet :=
  let ss := getSampleStyleSheet ()
  let title := { ss.Title with
    name := "Title"
    fontName := "Helvetica-Bold"
    fontSize := 28
    textColor := PRIMARY_BLUE
    leading := 34
    spaceAfter := 16 }
  let subtitle := { ss.Normal with
    name := "Subtitle"
    fontName := "Helvetica"
    fontSize := 12
    textColor := NEUTRAL_MUTED
    leading := 16
    spaceAfter := 12 }
  let h2 := { ss.Heading2 with
    name := "H2"
    fontName := "Helvetica-Bold"
    fontSize := 18
    textColor := NEUTRAL_DARK
    leading := 22
    spaceBefore := 6
    spaceAfter := 8 }
  let h2_color := { h2 with name := "H2Color", textColor := PRIMARY_BLUE }
  let body := { ss.BodyText with
    name := "Body"
    fontName := "Helvetica"
    fontSize := 10.5
    textColor := NEUTRAL_TEXT
    leading := 16
    spaceAfter := 8 }
  let caption := { ss.Italic with
    name := "Caption"
    fontName := "Helvetica-Oblique"
    fontSize := 9
    textColor := NEUTRAL_MUTED
    leading := 12
    alignment := 1
    spaceBefore := 4
    spaceAfter := 12 }
  let small := { ss.Normal with
    name := "Small"
    fontName := "Helvetica"
    fontSize := 9
    textColor := NEUTRAL_MUTED
    leading := 12 }
  let table_header := { ss.Normal with
    name := "TableHeader"
    fontName := "Helvetica-Bold"
    fontSize := 10
    textColor := white
    leading := 14 }
  let table_cell := { ss.Normal with
    name := "TableCell"
    fontName := "Helvetica"
    fontSize := 10
    textColor := NEUTRAL_TEXT
    leading := 14 }
  let callout := { ss.Normal with
    name := "Callout"
    fontName := "Helvetica"
    fontSize := 10.5
    textColor := NEUTRAL_DARK
    backColor := some NEUTRAL_BG
    leading := 16
    leftIndent := 8
    rightIndent := 8
    spaceBefore := 6
    spaceAfter := 10
    borderPadding := 8 }
  { title := title
    subtitle := subtitle
    h2 := h2
    h2c := h2_color
    body := body
    caption := caption
    small := small
    th := table_header
    tc := table_cell
    callout := callout }

/-- The dict view of the registry: the ten key-value pairs in source order. -/
def StyleSet.toPairs (s : StyleSet) : List (String × ParagraphStyle) :=
  [("title", s.title), ("subtitle", s.subtitle), ("h2", s.h2), ("h2c", s.h2c),
   ("body", s.body), ("caption", s.caption), ("small", s.small), ("th", s.th),
   ("tc", s.tc), ("callout", s.callout)]

/-- The style registry the assembler works with, build_styles applied once. -/
def defaultStyles : StyleSet := build_styles ()

/-- A table cell: a Paragraph with its style. -/
structure Cell where
  text : String
  style : ParagraphStyle
deriving DecidableEq

/-- An argument of a TableStyle command. -/
inductive CmdArg where
  | col (c : Color)
  | num (q : ℚ)
  | str (s : String)
  | cols (cs : List Color)
deriving DecidableEq

/-- A TableStyle command: opcode, start cell, stop cell, arguments, exactly
as the tuples in colored_table. -/
structure StyleCmd where
  op : String
  cellFrom : Int × Int
  cellTo : Int × Int
  args : List CmdArg
deriving DecidableEq

/-- A Table flowable: cell grid, column widths, alignment and style commands. -/
structure TableF where
  data : List (List Cell)
  colWidths : Option (List ℚ)
  hAlign : String
  cmds : List StyleCmd
deriving DecidableEq

/-- The flowable variants the program constructs. -/
inductive Flowable where
  | par (text : String) (style : ParagraphStyle)
  | spacer (w h : ℚ)
  | tbl (t : TableF)
  | img (path : String) (width height : ℚ) (hAlign : String)
  | pageBreak
  | divider (width : ℚ) (color : Color)
deriving DecidableEq

/-- section_header from the source: spacer, colored heading, spacer, divider,
spacer. -/
def section_header (text : String) (styles : StyleSet) (accent : Color) : List Flowable :=
  [.spacer 1 10, .par text styles.h2c, .spacer 1 4, .divider 1.2 accent, .spacer 1 8]

/-- colored_table from the source: wraps the data in a LEFT aligned table and
attaches the twelve style commands written there. -/
def colored_table (data : List (List Cell)) (colWidths : Option (List ℚ))
    (header_bg : Color) (grid_color : Color) : TableF :=
  { data := data, colWidths := colWidths, hAlign := "LEFT",
    cmds :=
      [⟨"BACKGROUND", (0, 0), (-1, 0), [.col header_bg]⟩,
       ⟨"LINEABOVE", (0, 0), (-1, 0), [.num 1, .col header_bg]⟩,
       ⟨"LINEBELOW", (0, 0), (-1, 0), [.num 1, .col header_bg]⟩,
       ⟨"TEXTCOLOR", (0, 0), (-1, 0), [.col white]⟩,
       ⟨"ALIGN", (0, 0), (-1, 0), [.str "LEFT"]⟩,
       ⟨"VALIGN", (0, 0), (-1, -1), [.str "MIDDLE"]⟩,
       ⟨"GRID", (0, 0), (-1, -1), [.num 0.5, .col grid_color]⟩,
       ⟨"ROWBACKGROUNDS", (0, 1), (-1, -1), [.cols [white, whitesmoke]]⟩,
       ⟨"LEFTPADDING", (0, 0), (-1, -1), [.num 8]⟩,
       ⟨"RIGHTPADDING", (0, 0), (-1, -1), [.num 8]⟩,
       ⟨"TOPPADDING", (0, 0), (-1, -1), [.num 6]⟩,
       ⟨"BOTTOMPADDING", (0, 0), (-1, -1), [.num 6]⟩] }

/-- info_table from the source: Field and Details header row, then one row per
pair, all through colored_table with the default PRIMARY_BLUE header. -/
def info_table (rows : List (String × String)) (styles : StyleSet) : TableF :=
  let data := [[Cell.mk "Field" styles.th, Cell.mk "Details" styles.th]] ++
    rows.map (fun kv => [Cell.mk kv.1 styles.tc, Cell.mk kv.2 styles.tc])
  colored_table data (some [1.7 * inch, 4.6 * inch]) PRIMARY_BLUE NEUTRAL_BORDER

/-- The status-to-color conditional of deliverables_table, in source order:
In Progress, then Done, else the fallback. -/
def status_color (status : String) : Color :=
  if status = "In Progress" then SECONDARY_PURPLE
  else if status = "Done" then PRIMARY_BLUE
  else ACCENT_ORANGE

/-- The per-entry status cell style of deliverables_table: the tc style with
bold font and the status-dependent text color. -/
def status_style (styles : StyleSet) (status : String) : ParagraphStyle :=
  { styles.tc with
    name := "Status"
    textColor := status_color status
    fontName := "Helvetica-Bold" }

/-- deliverables_table from the source: Deliverable and Status header row, one
row per item with the colored status cell, SECONDARY_PURPLE header. -/
def deliverables_table (items : List (String × String)) (styles : StyleSet) : TableF :=
  let data := [[Cell.mk "Deliverable" styles.th, Cell.mk "Status" styles.th]] ++
    items.map (fun ts => [Cell.mk ts.1 styles.tc, Cell.mk ts.2 (status_style styles ts.2)])
  colored_table data (some [4.5 * inch, 1.8 * inch]) SECONDARY_PURPLE NEUTRAL_BORDER

/-- success_metrics_table from the source: Metric, Value, Notes header row,
one row per triple, PRIMARY_BLUE header. -/
def success_metrics_table (metrics : List (String × String × String))
    (styles : StyleSet) : TableF :=
  let data := [[Cell.mk "Metric" styles.th, Cell.mk "Value" styles.th,
                Cell.mk "Notes" styles.th]] ++
    metrics.map (fun mvn => [Cell.mk mvn.1 styles.tc, Cell.mk mvn.2.1 styles.tc,
                             Cell.mk mvn.2.2 styles.tc])
  colored_table data (some [2.2 * inch, 1.6 * inch, 2.5 * inch]) PRIMARY_BLUE NEUTRAL_BORDER

/-- The ambient state the program consults at run time: the current working
directory (none when os.getcwd raises), the formatted date, file existence,
whether constructing an Image from an existing file raises (some message) or
succeeds (none), and whether laying out and serializing the document to a
given output path raises (some message) or succeeds (none). -/
structure Env where
  cwd : Option String
  today : String
  pathExists : String → Bool
  imgErr : String → Option String
  renderErr : String → Option String

/-- os.path.basename for posix paths: the characters after the last slash. -/
def ospath_basename (p : String) : String :=
  String.mk (p.toList.foldl (fun acc c => if c = '/' then [] else acc ++ [c]) [])

/-- repo_basename from the source: basename of the working directory, with
the fallback to the word project both when the basename is empty (the Python
or-expression on a falsy string) and when getcwd raises (the except branch). -/
def repo_basename (cwd : Option String) : String :=
  match cwd with
  | some p => if ospath_basename p = "" then "project" else ospath_basename p
  | none => "project"

/-- OUTPUT_PDF from the source: the default output filename derived from the
repository directory name. -/
def OUTPUT_PDF (cwd : Option String) : String :=
  repo_basename cwd ++ "_Modern_Report.pdf"

/-- The placeholder style of a missing screenshot: tc recolored to the
warning ACCENT_ORANGE. -/
def missing_style (styles : StyleSet) : ParagraphStyle :=
  { styles.tc with name := "Missing", textColor := ACCENT_ORANGE }

/-- The placeholder style of an image that failed to load: tc recolored to
the warning ACCENT_ORANGE. -/
def err_style (styles : StyleSet) : ParagraphStyle :=
  { styles.tc with name := "Err", textColor := ACCENT_ORANGE }

/-- screenshot_flowable from the source. When the path does not exist, a
single warning paragraph naming the file. Otherwise the Image constructor is
attempted: when it raises, the exception is caught and a single warning
paragraph carries the message; when it succeeds, the centered image at the
fixed box followed by the caption paragraph. The function is total, so no
exception escapes this boundary. -/
def screenshot_flowable (env : Env) (path caption : String) (styles : StyleSet) :
    List Flowable :=
  if !env.pathExists path then
    [.par ("[Missing screenshot: " ++ ospath_basename path ++ "]") (missing_style styles)]
  else
    match env.imgErr path with
    | some e =>
        [.par ("[Error loading " ++ ospath_basename path ++ ": " ++ e ++ "]")
          (err_style styles)]
    | none => [.img path SHOT_W SHOT_H "CENTER", .par caption styles.caption]

def PROJECT_TITLE : String := "Static Website Deployment with AWS S3 and CloudFront"

def PROJECT_SUBTITLE : String :=
  "Infrastructure-as-Code with Terraform for a globally distributed static portfolio site"

def LIVE_URL : String := "https://dbnp3womfvfzi.cloudfront.net"

def AUTHOR : String := "thaboxan"

def ORIGINAL_TASK_DESCRIPTION : String :=
  "Deploy a production-ready static website on AWS using S3 for website hosting and CloudFront for global content delivery. " ++
  "Automate infrastructure with Terraform, enable secure access via Origin Access Control, and publish the built site assets. " ++
  "Provide documentation, cost-conscious configuration, and verification screenshots."

def summary_text : String :=
  "This engagement delivers a robust, cost-effective static website platform on AWS. The site is hosted in Amazon S3 " ++
  "and distributed globally via Amazon CloudFront. Terraform codifies the infrastructure for consistency and repeatability. " ++
  "Security follows best practices with CloudFront as the single entry point and S3 protected by Origin Access Control."

def deliverables : List (String × String) :=
  [("Terraform IaC for S3 + CloudFront (OAC, default root object, HTTPS)", "Done"),
   ("S3 bucket static website configuration and policy", "Done"),
   ("Build and publish site artifacts (index.html, assets)", "Done"),
   ("Verification screenshots (S3, CloudFront, Live)", "Done"),
   ("Documentation (README, PDF report)", "Done")]

def impl_points : List String :=
  ["Provisioned AWS resources via Terraform: S3 bucket with versioning, CloudFront distribution, and Origin Access Control.",
   "Restricted bucket access to CloudFront using OAC; public website access flows exclusively through CloudFront.",
   "Configured default root object (index.html) and optimized CloudFront behaviors for static assets.",
   "Uploaded built website artifacts to S3; validated correct content-types for CSS/JS/images.",
   "Performed deployment validation and recorded evidence screenshots."]

/-- The configured screenshot references, with os.path.join rendered as a
posix path separator. -/
def screenshots : List (String × String) :=
  [("screenshots/s3-settings.png", "S3 bucket configuration and static website settings."),
   ("screenshots/bucket-policy.png", "Bucket policy allowing least-privilege access for website content."),
   ("screenshots/cloudfront-distribution.png", "CloudFront distribution settings with OAC and default behavior."),
   ("screenshots/website-live.png", "Live website served via CloudFront global edge locations."),
   ("screenshots/week_8.png", "Deployment summary overview of resources and outcomes.")]

def conclusion_text : String :=
  "The solution meets all stated objectives: it is globally performant, secure by design, automated via Terraform, " ++
  "and documented. The platform is production-ready and positioned for low operational overhead and cost efficiency."

def metrics : List (String × String × String) :=
  [("Provisioning Time", "~15 minutes", "Includes CloudFront deployment propagation."),
   ("Availability", ">99.9%", "Backed by AWS service SLAs."),
   ("Security Posture", "OAC-enabled", "Direct S3 access restricted; HTTPS enforced."),
   ("Scalability", "Global CDN", "Auto-scales via CloudFront edge network.")]

def tech_summary_text : String :=
  "S3 provides durable object storage and static website hosting; CloudFront delivers content with low latency. " ++
  "Terraform codifies the infrastructure, enabling reproducible deployments and change control."

/-- The rows of the cover info table. The f-string interpolation of the link
color renders the color by its hex source text, per the color model above. -/
def info_rows (env : Env) : List (String × String) :=
  [("Project", PROJECT_TITLE),
   ("Repository", repo_basename env.cwd),
   ("Author", AUTHOR),
   ("Date", env.today),
   ("Live URL", "<link href=\x27" ++ LIVE_URL ++ "\x27 color=\x27" ++ PRIMARY_BLUE ++
      "\x27>" ++ LIVE_URL ++ "</link>"),
   ("Stack", "AWS S3, AWS CloudFront, Terraform, HTML/CSS, AWS CLI")]

/-- build_story from the source: the sequential appends of the function body,
with the screenshot loop as a left fold extending the story. -/
def build_story (env : Env) : List Flowable :=
  let styles := build_styles ()
  let story : List Flowable := []
  let story := story ++ [.par PROJECT_TITLE styles.title, .par PROJECT_SUBTITLE styles.subtitle]
  let story := story ++
    [.spacer 1 12, .tbl (info_table (info_rows env) styles), .spacer 1 18,
     .par "Corporate-ready PDF generated via Python ReportLab with modern styling." styles.small,
     .pageBreak]
  let story := story ++ section_header "📄 Executive Summary" styles PRIMARY_BLUE
  let story := story ++ [.par summary_text styles.body]
  let story := story ++ section_header "📋 Requirements" styles SECONDARY_PURPLE
  let story := story ++
    [.par "Original Task Description" styles.h2, .par ORIGINAL_TASK_DESCRIPTION styles.callout]
  let story := story ++ [.spacer 1 6, .tbl (deliverables_table deliverables styles), .pageBreak]
  let story := story ++ section_header "🧩 Implementation Details" styles PRIMARY_BLUE
  let story := story ++ impl_points.map (fun p => .par ("• " ++ p) styles.body)
  let story := story ++ [.spacer 1 10]
  let story := story ++ section_header "🧪 Testing & Verification" styles SECONDARY_PURPLE
  let story := screenshots.foldl
    (fun acc pc => acc ++ screenshot_flowable env pc.1 pc.2 styles ++ [.spacer 1 16]) story
  let story := story ++ [.pageBreak]
  let story := story ++ section_header "🏁 Conclusion" styles PRIMARY_BLUE
  let story := story ++
    [.par conclusion_text styles.body, .tbl (success_metrics_table metrics styles),
     .spacer 1 18, .par "Technical Summary" styles.h2, .par tech_summary_text styles.body]
  story

/-- The list the screenshot loop of build_story accumulates in its local
variable named missing: the basename of every configured screenshot whose
path does not exist. The source computes this list inside the loop and never
reads or returns it afterwards. -/
def missingOf (env : Env) : List String :=
  screenshots.foldl
    (fun acc pc => if !env.pathExists pc.1 then acc ++ [ospath_basename pc.1] else acc) []

/-- A line printed by the process, tagged with its channel. The Python print
builtin writes to standard output. -/
inductive OutEvent where
  | toStdout (s : String)
  | toStderr (s : String)
deriving DecidableEq

def is_stdout_event : OutEvent → Bool
  | .toStdout _ => true
  | .toStderr _ => false

/-- build_pdf from the source: the whole layout and serialization attempt is
wrapped in a try block; on success the return value is 0, on any exception
the handler prints the diagnostic (via print, hence to stdout) and the return
value is 1. The function is total: no exception propagates past it. -/
def build_pdf (env : Env) (output_path : String) : Int × List OutEvent :=
  match env.renderErr output_path with
  | none => (0, [])
  | some e => (1, [.toStdout ("Error generating PDF: " ++ e)])

/-- The module entry block: build the PDF at the derived default name; on
return code 0 print the success line and finish with exit status 0, otherwise
exit with the return code. Result: the process exit status and the printed
lines. -/
def main_run (env : Env) : Int × List OutEvent :=
  let out := OUTPUT_PDF env.cwd
  let r := build_pdf env out
  if r.1 = 0 then (0, r.2 ++ [.toStdout ("PDF successfully created: " ++ out)])
  else (r.1, r.2)

/-- The cover section: title, subtitle, info table, footnote line. -/
def cover_section (env : Env) : List Flowable :=
  [.par PROJECT_TITLE defaultStyles.title, .par PROJECT_SUBTITLE defaultStyles.subtitle,
   .spacer 1 12, .tbl (info_table (info_rows env) defaultStyles), .spacer 1 18,
   .par "Corporate-ready PDF generated via Python ReportLab with modern styling."
     defaultStyles.small]

/-- The executive summary section. -/
def executive_summary_section : List Flowable :=
  section_header "📄 Executive Summary" defaultStyles PRIMARY_BLUE ++
  [.par summary_text defaultStyles.body]

/-- The requirements section with the deliverables sub-table. -/
def requirements_section : List Flowable :=
  section_header "📋 Requirements" defaultStyles SECONDARY_PURPLE ++
  [.par "Original Task Description" defaultStyles.h2,
   .par ORIGINAL_TASK_DESCRIPTION defaultStyles.callout,
   .spacer 1 6, .tbl (deliverables_table deliverables defaultStyles)]

/-- The implementation details section as a bulleted list. -/
def implementation_section : List Flowable :=
  section_header "🧩 Implementation Details" defaultStyles PRIMARY_BLUE ++
  impl_points.map (fun p => .par ("• " ++ p) defaultStyles.body) ++ [.spacer 1 10]

/-- The testing and verification section: one screenshot block per configured
screenshot, in the configured order, each followed by a spacer. -/
def verification_section (env : Env) : List Flowable :=
  section_header "🧪 Testing & Verification" defaultStyles SECONDARY_PURPLE ++
  screenshots.foldl
    (fun acc pc => acc ++ screenshot_flowable env pc.1 pc.2 defaultStyles ++ [.spacer 1 16]) []

/-- The conclusion section with the metrics table and closing technical
summary. -/
def conclusion_section : List Flowable :=
  section_header "🏁 Conclusion" defaultStyles PRIMARY_BLUE ++
  [.par conclusion_text defaultStyles.body,
   .tbl (success_metrics_table metrics defaultStyles),
   .spacer 1 18, .par "Technical Summary" defaultStyles.h2,
   .par tech_summary_text defaultStyles.body]

/-- Shared decomposition of the assembled story into its six sections with
the three page breaks at the cover, requirements and verification boundaries. -/
theorem build_story_eq (env : Env) :
    build_story env =
      cover_section env ++ [Flowable.pageBreak] ++ executive_summary_section ++
      requirements_section ++ [Flowable.pageBreak] ++ implementation_section ++
      verification_section env ++ [Flowable.pageBreak] ++ conclusion_section := by
  simp [build_story, cover_section, executive_summary_section, requirements_section,
        implementation_section, verification_section, conclusion_section, defaultStyles,
        section_header, screenshots, List.foldl]

/-- C8: the style registry builder build_styles is pure and deterministic:
any two invocations yield style sets equal in every attribute, and the
registry maps exactly the ten named style identifiers of the source dict, in
order. -/
theorem build_styles_deterministic :
    (∀ u v : Unit, build_styles u = build_styles v) ∧
    (build_styles ()).toPairs.map Prod.fst =
      ["title", "subtitle", "h2", "h2c", "body", "caption", "small", "th", "tc",
       "callout"] :=
  ⟨fun _ _ => rfl, rfl⟩

/-- C4: for a fixed environment, build_story produces one fixed ordered
flowable sequence (it is a function of the input content), whose sections
appear in the fixed order cover, executive summary, requirements with the
deliverables sub-table, implementation details as a bulleted list, testing
and verification with one screenshot block per configured screenshot in
configured order, conclusion with the metrics table and closing technical
summary, with page breaks exactly at the cover, requirements and verification
boundaries. -/
theorem build_story_fixed_order (env : Env) :
    build_story env =
      cover_section env ++ [Flowable.pageBreak] ++ executive_summary_section ++
      requirements_section ++ [Flowable.pageBreak] ++ implementation_section ++
      verification_section env ++ [Flowable.pageBreak] ++ conclusion_section :=
  build_story_eq env

/-- C10: repo_basename is total at entry: it falls back to the word project
when getcwd raises (cwd unavailable) and when the basename of the working
directory is empty, so it is never the empty string and the default output
filename is the non-empty basename followed by the fixed report suffix. -/
theorem repo_basename_total (cwd : Option String) :
    repo_basename cwd ≠ "" ∧
    OUTPUT_PDF cwd = repo_basename cwd ++ "_Modern_Report.pdf" ∧
    OUTPUT_PDF cwd ≠ "" ∧
    repo_basename none = "project" ∧
    (∀ p : String, ospath_basename p = "" → repo_basename (some p) = "project") := by
  refine ⟨?_, rfl, ?_, rfl, ?_⟩
  · match cwd with
    | none => decide
    | some p =>
        by_cases h : ospath_basename p = ""
        · simp [repo_basename, h]
        · simp [repo_basename, h]
  · intro h
    have h2 := congrArg String.length h
    simp only [OUTPUT_PDF, String.length_append] at h2
    have h3 : ("_Modern_Report.pdf").length = 18 := rfl
    have h4 : ("" : String).length = 0 := rfl
    omega
  · intro p hp
    simp [repo_basename, hp]

/-- C10 witness: concrete evaluations through repo_basename_total, at a
normal working directory and at one whose basename is empty. -/
theorem repo_basename_total_witness :
    repo_basename (some "/root/aws_staticWebsite") ≠ "" ∧
    repo_basename (some "dir/") = "project" :=
  ⟨(repo_basename_total (some "/root/aws_staticWebsite")).1,
   (repo_basename_total (some "dir/")).2.2.2.2 "dir/" (by decide)⟩

/-- C7: the deliverables table maps the Done label, the In Progress label and
any other label to three pairwise distinct fixed colors, the mapping is a
fixed function (hence identical across repeated builds), and every data row
renders its status cell in the bold style carrying exactly that color. -/
theorem deliverables_status_colors :
    (∀ items : List (String × String),
      (deliverables_table items defaultStyles).data =
        [Cell.mk "Deliverable" defaultStyles.th, Cell.mk "Status" defaultStyles.th] ::
          items.map (fun ts =>
            [Cell.mk ts.1 defaultStyles.tc,
             Cell.mk ts.2 (status_style defaultStyles ts.2)])) ∧
    status_color "Done" = PRIMARY_BLUE ∧
    status_color "In Progress" = SECONDARY_PURPLE ∧
    (∀ s : String, s ≠ "Done" → s ≠ "In Progress" → status_color s = ACCENT_ORANGE) ∧
    (∀ s : String, (status_style defaultStyles s).textColor = status_color s) ∧
    PRIMARY_BLUE ≠ SECONDARY_PURPLE ∧ PRIMARY_BLUE ≠ ACCENT_ORANGE ∧
    SECONDARY_PURPLE ≠ ACCENT_ORANGE := by
  refine ⟨?_, rfl, rfl, ?_, fun s => rfl, by decide, by decide, by decide⟩
  · intro items
    simp [deliverables_table, colored_table]
  · intro s h1 h2
    simp [status_color, h1, h2]

/-- C7 witness: the three-way mapping evaluated through the theorem at a
concrete table with one entry per branch of the conditional. -/
theorem deliverables_status_colors_witness :
    status_color "Blocked" = ACCENT_ORANGE ∧
    (deliverables_table [("Docs", "Blocked")] defaultStyles).data =
      [Cell.mk "Deliverable" defaultStyles.th, Cell.mk "Status" defaultStyles.th] ::
        [[Cell.mk "Docs" defaultStyles.tc,
          Cell.mk "Blocked" (status_style defaultStyles "Blocked")]] :=
  ⟨deliverables_status_colors.2.2.2.1 "Blocked" (by decide) (by decide),
   deliverables_status_colors.1 [("Docs", "Blocked")]⟩

/-- C1: the screenshot embedder is total (being a Lean function, nothing
escapes its boundary) and in every environment returns exactly one of: a
single warning-colored paragraph naming the missing file when the path does
not exist; a single warning-colored paragraph carrying the underlying error
message when the image constructor raises; or the fixed-box centered image
followed by the caption paragraph in the centered caption style. -/
theorem screenshot_flowable_cases (env : Env) (path caption : String) :
    (env.pathExists path = false →
      screenshot_flowable env path caption defaultStyles =
        [Flowable.par ("[Missing screenshot: " ++ ospath_basename path ++ "]")
          (missing_style defaultStyles)]) ∧
    (∀ e : String, env.pathExists path = true → env.imgErr path = some e →
      screenshot_flowable env path caption defaultStyles =
        [Flowable.par ("[Error loading " ++ ospath_basename path ++ ": " ++ e ++ "]")
          (err_style defaultStyles)]) ∧
    (env.pathExists path = true → env.imgErr path = none →
      screenshot_flowable env path caption defaultStyles =
        [Flowable.img path SHOT_W SHOT_H "CENTER",
         Flowable.par caption defaultStyles.caption]) ∧
    (missing_style defaultStyles).textColor = ACCENT_ORANGE ∧
    (err_style defaultStyles).textColor = ACCENT_ORANGE ∧
    defaultStyles.caption.alignment = 1 := by
  refine ⟨?_, ?_, ?_, rfl, rfl, rfl⟩
  · intro h
    simp [screenshot_flowable, h]
  · intro e h hi
    simp [screenshot_flowable, h, hi]
  · intro h hi
    simp [screenshot_flowable, h, hi]

/-- An environment in which no screenshot file exists, no image raises and
rendering succeeds everywhere. -/
def envNoShots : Env :=
  { cwd := none, today := "January 01, 2026", pathExists := fun _ => false,
    imgErr := fun _ => none, renderErr := fun _ => none }

/-- An environment in which every screenshot file exists and decodes, and
rendering succeeds everywhere. -/
def envAllShots : Env :=
  { cwd := some "/work/aws_staticWebsite", today := "January 01, 2026",
    pathExists := fun _ => true, imgErr := fun _ => none, renderErr := fun _ => none }

/-- C1 witness: the three branches evaluated through the theorem at concrete
environments and a concrete path. -/
theorem screenshot_flowable_cases_witness :
    envNoShots.pathExists "screenshots/week_8.png" = false ∧
    screenshot_flowable envNoShots "screenshots/week_8.png" "cap" defaultStyles =
      [Flowable.par ("[Missing screenshot: " ++ ospath_basename "screenshots/week_8.png" ++ "]")
        (missing_style defaultStyles)] ∧
    screenshot_flowable envAllShots "screenshots/week_8.png" "cap" defaultStyles =
      [Flowable.img "screenshots/week_8.png" SHOT_W SHOT_H "CENTER",
       Flowable.par "cap" defaultStyles.caption] :=
  ⟨rfl,
   (screenshot_flowable_cases envNoShots "screenshots/week_8.png" "cap").1 rfl,
   (screenshot_flowable_cases envAllShots "screenshots/week_8.png" "cap").2.2.1 rfl rfl⟩

/-- C2: each table builder, given N data rows, yields a table of exactly N+1
rows whose first row is the header in the th style (bold, white text), with
the header background command in the header color and the white header text
command present in the table style, regardless of N. -/
theorem table_builders_header_rows (rows items : List (String × String))
    (ms : List (String × String × String)) :
    (info_table rows defaultStyles).data.length = rows.length + 1 ∧
    (info_table rows defaultStyles).data.head? =
      some [Cell.mk "Field" defaultStyles.th, Cell.mk "Details" defaultStyles.th] ∧
    (deliverables_table items defaultStyles).data.length = items.length + 1 ∧
    (deliverables_table items defaultStyles).data.head? =
      some [Cell.mk "Deliverable" defaultStyles.th, Cell.mk "Status" defaultStyles.th] ∧
    (success_metrics_table ms defaultStyles).data.length = ms.length + 1 ∧
    (success_metrics_table ms defaultStyles).data.head? =
      some [Cell.mk "Metric" defaultStyles.th, Cell.mk "Value" defaultStyles.th,
            Cell.mk "Notes" defaultStyles.th] ∧
    defaultStyles.th.fontName = "Helvetica-Bold" ∧
    defaultStyles.th.textColor = white ∧
    (⟨"BACKGROUND", (0, 0), (-1, 0), [.col PRIMARY_BLUE]⟩ : StyleCmd) ∈
      (info_table rows defaultStyles).cmds ∧
    (⟨"BACKGROUND", (0, 0), (-1, 0), [.col SECONDARY_PURPLE]⟩ : StyleCmd) ∈
      (deliverables_table items defaultStyles).cmds ∧
    (⟨"BACKGROUND", (0, 0), (-1, 0), [.col PRIMARY_BLUE]⟩ : StyleCmd) ∈
      (success_metrics_table ms defaultStyles).cmds ∧
    (⟨"TEXTCOLOR", (0, 0), (-1, 0), [.col white]⟩ : StyleCmd) ∈
      (info_table rows defaultStyles).cmds := by
  refine ⟨?_, rfl, ?_, rfl, ?_, rfl, rfl, rfl, ?_, ?_, ?_, ?_⟩
  · simp [info_table, colored_table, Nat.add_comm]
  · simp [deliverables_table, colored_table, Nat.add_comm]
  · simp [success_metrics_table, colored_table, Nat.add_comm]
  · simp [info_table, colored_table]
  · simp [deliverables_table, colored_table]
  · simp [success_metrics_table, colored_table]
  · simp [info_table, colored_table]

/-- An environment whose render step fails with a disk full error at every
output path, all screenshots absent. -/
def envRenderFail : Env :=
  { cwd := some "/work/aws_staticWebsite", today := "January 01, 2026",
    pathExists := fun _ => false, imgErr := fun _ => none,
    renderErr := fun _ => some "disk full" }

/-- C3 counterexample: on a failing render the process exits non-zero, but
its only diagnostic line is written by print to standard output; no line
reaches a channel other than stdout, refuting the claim that the diagnostic
goes to an error channel that is not stdout. -/
theorem main_diagnostic_on_stdout :
    main_run envRenderFail =
      (1, [OutEvent.toStdout "Error generating PDF: disk full"]) ∧
    (main_run envRenderFail).2.all is_stdout_event = true ∧
    ((main_run envRenderFail).2.filter (fun ev => !is_stdout_event ev)) = [] :=
  ⟨rfl, rfl, rfl⟩

/-- C3 (amended): build_pdf catches any failure during layout or
serialization and returns the distinct failure indicator 1 rather than
propagating, the process exits with code 0 on success and the non-zero code
1 on failure, and the diagnostic message is written to standard output (not
to a separate error channel). -/
theorem build_pdf_error_contract (env : Env) (out : String) :
    (env.renderErr out = none → build_pdf env out = (0, [])) ∧
    (∀ e : String, env.renderErr out = some e →
      build_pdf env out =
        (1, [OutEvent.toStdout ("Error generating PDF: " ++ e)])) ∧
    ((build_pdf env out).1 = 0 ∨ (build_pdf env out).1 = 1) ∧
    (env.renderErr (OUTPUT_PDF env.cwd) = none →
      (main_run env).1 = 0 ∧
      OutEvent.toStdout ("PDF successfully created: " ++ OUTPUT_PDF env.cwd) ∈
        (main_run env).2) ∧
    (∀ e : String, env.renderErr (OUTPUT_PDF env.cwd) = some e →
      (main_run env).1 = 1 ∧
      (main_run env).2.all is_stdout_event = true ∧
      OutEvent.toStdout ("Error generating PDF: " ++ e) ∈ (main_run env).2) := by
  refine ⟨?_, ?_, ?_, ?_, ?_⟩
  · intro h
    simp [build_pdf, h]
  · intro e h
    simp [build_pdf, h]
  · unfold build_pdf
    match env.renderErr out with
    | none => simp
    | some e => simp
  · intro h
    simp [main_run, build_pdf, h]
  · intro e h
    simp [main_run, build_pdf, h, is_stdout_event]

/-- C3 witness: the amended contract evaluated through the theorem at the
failing environment and at a succeeding one. -/
theorem build_pdf_error_contract_witness :
    build_pdf envRenderFail "out.pdf" =
      (1, [OutEvent.toStdout "Error generating PDF: disk full"]) ∧
    (main_run envRenderFail).1 = 1 ∧
    (main_run envAllShots).1 = 0 :=
  ⟨(build_pdf_error_contract envRenderFail "out.pdf").2.1 "disk full" rfl,
   ((build_pdf_error_contract envRenderFail "out.pdf").2.2.2.2 "disk full" rfl).1,
   ((build_pdf_error_contract envAllShots "out.pdf").2.2.2.1 rfl).1⟩

def is_divider : Flowable → Bool
  | .divider _ _ => true
  | .par _ _ => false
  | .spacer _ _ => false
  | .tbl _ => false
  | .img _ _ _ _ => false
  | .pageBreak => false

def is_page_break : Flowable → Bool
  | .pageBreak => true
  | .par _ _ => false
  | .spacer _ _ => false
  | .tbl _ => false
  | .img _ _ _ _ => false
  | .divider _ _ => false

/-- A screenshot outcome in the story: an embedded image, or one of the two
warning placeholders the embedder substitutes for it. -/
def is_shot_marker : Flowable → Bool
  | .img _ _ _ _ => true
  | .par _ st => st.name == "Missing" || st.name == "Err"
  | .spacer _ _ => false
  | .tbl _ => false
  | .pageBreak => false
  | .divider _ _ => false

/-- A flowable is image-size-correct when it either is not an image or is an
image at the fixed screenshot box. -/
def image_sized_ok : Flowable → Bool
  | .img _ w h _ => decide (w = SHOT_W) && decide (h = SHOT_H)
  | .par _ _ => true
  | .spacer _ _ => true
  | .tbl _ => true
  | .pageBreak => true
  | .divider _ _ => true

/-- Every image in the list uses the fixed screenshot box. -/
def images_sized_ok (fs : List Flowable) : Bool :=
  fs.all image_sized_ok

theorem screenshot_flowable_missing (env : Env) (p c : String) (styles : StyleSet)
    (h : env.pathExists p = false) :
    screenshot_flowable env p c styles =
      [.par ("[Missing screenshot: " ++ ospath_basename p ++ "]") (missing_style styles)] := by
  simp [screenshot_flowable, h]

theorem screenshot_flowable_err (env : Env) (p c e : String) (styles : StyleSet)
    (h : env.pathExists p = true) (hi : env.imgErr p = some e) :
    screenshot_flowable env p c styles =
      [.par ("[Error loading " ++ ospath_basename p ++ ": " ++ e ++ "]") (err_style styles)] := by
  simp [screenshot_flowable, h, hi]

theorem screenshot_flowable_ok (env : Env) (p c : String) (styles : StyleSet)
    (h : env.pathExists p = true) (hi : env.imgErr p = none) :
    screenshot_flowable env p c styles =
      [.img p SHOT_W SHOT_H "CENTER", .par c styles.caption] := by
  simp [screenshot_flowable, h, hi]

/-- Whatever the environment, one screenshot block contributes no divider, no
page break, exactly one screenshot marker, and only fixed-box images. -/
theorem screenshot_flowable_counts (env : Env) (p c : String) :
    (screenshot_flowable env p c defaultStyles).countP is_divider = 0 ∧
    (screenshot_flowable env p c defaultStyles).countP is_page_break = 0 ∧
    (screenshot_flowable env p c defaultStyles).countP is_shot_marker = 1 ∧
    images_sized_ok (screenshot_flowable env p c defaultStyles) = true := by
  cases h : env.pathExists p with
  | false =>
      rw [screenshot_flowable_missing env p c defaultStyles h]
      exact ⟨rfl, rfl, rfl, rfl⟩
  | true =>
      cases hi : env.imgErr p with
      | none =>
          rw [screenshot_flowable_ok env p c defaultStyles h hi]
          exact ⟨rfl, rfl, rfl, by simp [images_sized_ok, image_sized_ok]⟩
      | some e =>
          rw [screenshot_flowable_err env p c e defaultStyles h hi]
          exact ⟨rfl, rfl, rfl, rfl⟩

theorem images_sized_ok_append (l r : List Flowable) :
    images_sized_ok (l ++ r) = (images_sized_ok l && images_sized_ok r) := by
  simp [images_sized_ok]

theorem images_sized_ok_cons (f : Flowable) (l : List Flowable) :
    images_sized_ok (f :: l) = (image_sized_ok f && images_sized_ok l) := by
  simp [images_sized_ok]

theorem images_sized_ok_nil : images_sized_ok [] = true := rfl

theorem section_header_counts (t : String) (a : Color) :
    (section_header t defaultStyles a).countP is_divider = 1 ∧
    (section_header t defaultStyles a).countP is_page_break = 0 ∧
    (section_header t defaultStyles a).countP is_shot_marker = 0 ∧
    images_sized_ok (section_header t defaultStyles a) = true :=
  ⟨rfl, rfl, rfl, rfl⟩

theorem cover_section_counts (env : Env) :
    (cover_section env).countP is_divider = 0 ∧
    (cover_section env).countP is_page_break = 0 ∧
    (cover_section env).countP is_shot_marker = 0 ∧
    images_sized_ok (cover_section env) = true :=
  ⟨rfl, rfl, rfl, rfl⟩

theorem verification_section_counts (env : Env) :
    (verification_section env).countP is_divider = 1 ∧
    (verification_section env).countP is_page_break = 0 ∧
    (verification_section env).countP is_shot_marker = 5 ∧
    images_sized_ok (verification_section env) = true := by
  obtain ⟨a1, b1, c1, d1⟩ := screenshot_flowable_counts env "screenshots/s3-settings.png"
    "S3 bucket configuration and static website settings."
  obtain ⟨a2, b2, c2, d2⟩ := screenshot_flowable_counts env "screenshots/bucket-policy.png"
    "Bucket policy allowing least-privilege access for website content."
  obtain ⟨a3, b3, c3, d3⟩ := screenshot_flowable_counts env
    "screenshots/cloudfront-distribution.png"
    "CloudFront distribution settings with OAC and default behavior."
  obtain ⟨a4, b4, c4, d4⟩ := screenshot_flowable_counts env "screenshots/website-live.png"
    "Live website served via CloudFront global edge locations."
  obtain ⟨a5, b5, c5, d5⟩ := screenshot_flowable_counts env "screenshots/week_8.png"
    "Deployment summary overview of resources and outcomes."
  obtain ⟨p1, p2, p3, p4⟩ := section_header_counts "🧪 Testing & Verification" SECONDARY_PURPLE
  refine ⟨?_, ?_, ?_, ?_⟩ <;>
    simp [verification_section, screenshots, List.foldl_cons, List.foldl_nil,
          List.countP_append, images_sized_ok_append, images_sized_ok_cons,
          images_sized_ok_nil, image_sized_ok, List.countP_cons, List.countP_nil,
          is_divider, is_page_break, is_shot_marker,
          a1, b1, c1, d1, a2, b2, c2, d2, a3, b3, c3, d3, a4, b4, c4, d4, a5, b5, c5, d5,
          p1, p2, p3, p4]

theorem fixed_sections_counts :
    executive_summary_section.countP is_divider = 1 ∧
    executive_summary_section.countP is_page_break = 0 ∧
    executive_summary_section.countP is_shot_marker = 0 ∧
    images_sized_ok executive_summary_section = true ∧
    requirements_section.countP is_divider = 1 ∧
    requirements_section.countP is_page_break = 0 ∧
    requirements_section.countP is_shot_marker = 0 ∧
    images_sized_ok requirements_section = true ∧
    implementation_section.countP is_divider = 1 ∧
    implementation_section.countP is_page_break = 0 ∧
    implementation_section.countP is_shot_marker = 0 ∧
    images_sized_ok implementation_section = true ∧
    conclusion_section.countP is_divider = 1 ∧
    conclusion_section.countP is_page_break = 0 ∧
    conclusion_section.countP is_shot_marker = 0 ∧
    images_sized_ok conclusion_section = true := by
  refine ⟨rfl, rfl, rfl, rfl, rfl, rfl, rfl, rfl, rfl, rfl, rfl, rfl, rfl, rfl, rfl, rfl⟩

/-- Membership of the 1:1 placeholder: every configured screenshot whose file
is absent contributes its warning paragraph to the verification section. -/
theorem mem_verification_of_missing (env : Env) (pc : String × String)
    (hmem : pc ∈ screenshots) (h : env.pathExists pc.1 = false) :
    Flowable.par ("[Missing screenshot: " ++ ospath_basename pc.1 ++ "]")
      (missing_style defaultStyles) ∈ verification_section env := by
  simp only [screenshots, List.mem_cons, List.not_mem_nil, or_false] at hmem
  rcases hmem with h1 | h1 | h1 | h1 | h1 <;> subst h1 <;>
    simp_all [verification_section, screenshots, List.foldl_cons, List.foldl_nil,
              screenshot_flowable_missing, List.mem_append]

/-- C5: whichever subset of the configured screenshots is missing, the
assembler still produces all six sections (five section headers, counted by
their dividers, and three page breaks), exactly one screenshot outcome per
configured screenshot (so missing images are replaced 1:1, never dropped),
and each absent file contributes its named placeholder paragraph. -/
theorem build_story_resilient (env : Env) :
    (build_story env).countP is_divider = 5 ∧
    (build_story env).countP is_page_break = 3 ∧
    (build_story env).countP is_shot_marker = screenshots.length ∧
    (∀ pc ∈ screenshots, env.pathExists pc.1 = false →
      Flowable.par ("[Missing screenshot: " ++ ospath_basename pc.1 ++ "]")
        (missing_style defaultStyles) ∈ build_story env) := by
  obtain ⟨v1, v2, v3, v4⟩ := verification_section_counts env
  obtain ⟨k1, k2, k3, k4⟩ := cover_section_counts env
  obtain ⟨e1, e2, e3, e4, r1, r2, r3, r4, i1, i2, i3, i4, c1, c2, c3, c4⟩ :=
    fixed_sections_counts
  refine ⟨?_, ?_, ?_, ?_⟩
  · rw [build_story_eq env]
    simp [List.countP_append, v1, k1, e1, r1, i1, c1, List.countP_cons, List.countP_nil,
          is_divider]
  · rw [build_story_eq env]
    simp [List.countP_append, v2, k2, e2, r2, i2, c2, List.countP_cons, List.countP_nil,
          is_page_break]
  · rw [build_story_eq env]
    simp [List.countP_append, v3, k3, e3, r3, i3, c3, List.countP_cons, List.countP_nil,
          is_shot_marker, screenshots]
  · intro pc hmem h
    have hv := mem_verification_of_missing env pc hmem h
    rw [build_story_eq env]
    simp only [List.mem_append]
    tauto

/-- C5 witness: with every screenshot absent, the theorem yields the full
section structure and the concrete placeholder for the first screenshot. -/
theorem build_story_resilient_witness :
    (build_story envNoShots).countP is_divider = 5 ∧
    envNoShots.pathExists "screenshots/s3-settings.png" = false ∧
    Flowable.par ("[Missing screenshot: " ++ ospath_basename "screenshots/s3-settings.png" ++ "]")
      (missing_style defaultStyles) ∈ build_story envNoShots :=
  ⟨(build_story_resilient envNoShots).1, rfl,
   (build_story_resilient envNoShots).2.2.2
     ("screenshots/s3-settings.png", "S3 bucket configuration and static website settings.")
     (by simp [screenshots]) rfl⟩

/-- C9: every Image flowable the assembler ever produces uses the constant
fixed box SHOT_W by SHOT_H, which is 6.5 inch by 4 inch, that is 468 by 288
points, independent of the source image and of the environment. -/
theorem screenshot_images_fixed_box (env : Env) :
    images_sized_ok (build_story env) = true ∧
    SHOT_W = 6.5 * inch ∧ SHOT_H = 4.0 * inch ∧ SHOT_W = 468 ∧ SHOT_H = 288 := by
  obtain ⟨v1, v2, v3, v4⟩ := verification_section_counts env
  obtain ⟨k1, k2, k3, k4⟩ := cover_section_counts env
  obtain ⟨e1, e2, e3, e4, r1, r2, r3, r4, i1, i2, i3, i4, c1, c2, c3, c4⟩ :=
    fixed_sections_counts
  refine ⟨?_, rfl, rfl, by norm_num [SHOT_W, inch], by norm_num [SHOT_H, inch]⟩
  rw [build_story_eq env]
  simp [images_sized_ok_append, images_sized_ok_cons, images_sized_ok_nil, image_sized_ok,
        v4, k4, e4, r4, i4, c4]

/-- C6: evaluation at the failing input where every screenshot is absent.
The screenshot loop of build_story computes the missing basename list,
modelled by missingOf, in a local variable, but the value build_story returns
is only the flowable list: the collected list is dropped at return, and the
missing names survive only inside the placeholder paragraph texts. -/
theorem build_story_missing_dead_local :
    missingOf envNoShots =
      ["s3-settings.png", "bucket-policy.png", "cloudfront-distribution.png",
       "website-live.png", "week_8.png"] ∧
    (build_story envNoShots).countP is_shot_marker = 5 ∧
    Flowable.par ("[Missing screenshot: " ++ ospath_basename "screenshots/s3-settings.png" ++ "]")
      (missing_style defaultStyles) ∈ build_story envNoShots := by
  obtain ⟨v1, v2, v3, v4⟩ := verification_section_counts envNoShots
  obtain ⟨k1, k2, k3, k4⟩ := cover_section_counts envNoShots
  obtain ⟨e1, e2, e3, e4, r1, r2, r3, r4, i1, i2, i3, i4, c1, c2, c3, c4⟩ :=
    fixed_sections_counts
  refine ⟨rfl, ?_, ?_⟩
  · rw [build_story_eq envNoShots]
    simp [List.countP_append, v3, k3, e3, r3, i3, c3, List.countP_cons, List.countP_nil,
          is_shot_marker]
  · have hv := mem_verification_of_missing envNoShots
      ("screenshots/s3-settings.png", "S3 bucket configuration and static website settings.")
      (by simp [screenshots]) rfl
    rw [build_story_eq envNoShots]
    simp only [List.mem_append]
    tauto

end AwsReport
